import Mathlib

/- A shallow embedding of the conversation-processing core of the
   OpenAI Control Home Assistant integration
   (custom_components/openai_control/__init__.py and
   custom_components/openai_control/const.py).

   Python values are modelled by inductive types.  The external
   collaborators used by `OpenAIAgent.async_process` — the template
   engine, the ulid generator, the entity registry and state machine,
   the service table, the OpenAI chat client, and the stdlib JSON
   decoder — are passed in explicitly through an `Env` record, so the
   orchestration routine itself becomes a pure function from an
   environment, a history store, an utterance and an optional
   conversation id to a `TurnOutcome`. -/

namespace OC

set_option maxRecDepth 16384

/-- A JSON value as produced by the stdlib decoder (`json.loads`). -/
inductive Json where
  | null
  | bool (b : Bool)
  | num (n : Int)
  | str (s : String)
  | arr (elems : List Json)
  | obj (fields : List (String × Json))

/-- A chat message.  The content is a `Json` value because the reply taken
from the decoded payload (`json_response['assistant']`) is stored without
any type check; plain-string contents are wrapped with `Json.str`. -/
structure Message where
  role : String
  content : Json

/-- The in-memory session store `self.history : dict[str, list[dict]]`,
modelled as an association list in insertion order. -/
def HistStore := List (String × List Message)

/-- Dictionary read: `self.history.get(key)` / `key in self.history`. -/
def histGet : HistStore → String → Option (List Message)
  | [], _ => none
  | (k', v) :: rest, k => if k' = k then some v else histGet rest k

/-- Dictionary write `self.history[key] = value`: replaces in place when the
key exists and appends otherwise (Python dicts keep insertion order). -/
def histSet : HistStore → String → List Message → HistStore
  | [], k, v => [(k, v)]
  | (k', v') :: rest, k, v =>
      if k' = k then (k, v) :: rest else (k', v') :: histSet rest k v

/-- Subscript of a decoded JSON object, `d[key]`: `none` models `KeyError`.
Objects decoded from JSON have distinct keys, so first match suffices. -/
def jLookup : List (String × Json) → String → Option Json
  | [], _ => none
  | (k', v) :: rest, k => if k' = k then some v else jLookup rest k

/-- The character `\x7b` (left curly brace), compared against by
`content.find` in the second extraction pass. -/
def lbrace : Char := Char.ofNat 123

/-- The character `\x7d` (right curly brace), compared against by
`content.rfind` in the second extraction pass. -/
def rbrace : Char := Char.ofNat 125

/-- Python `str.find(c)`: index of the first occurrence, `-1` if absent. -/
def findChar : List Char → Char → Int
  | [], _ => -1
  | a :: rest, c =>
      if a = c then 0
      else
        let r := findChar rest c
        if r = -1 then -1 else r + 1

/-- Python `str.rfind(c)`: index of the last occurrence, `-1` if absent. -/
def rfindChar : List Char → Char → Int
  | [], _ => -1
  | a :: rest, c =>
      let r := rfindChar rest c
      if r = -1 then (if a = c then 0 else -1) else r + 1

/-- Python slice `s[a:b]` for non-negative bounds. -/
def pySlice (cs : List Char) (a b : Nat) : List Char :=
  (cs.take b).drop a

/-- The fixed conversation starter `SYSTEM_PROMPT` from const.py. -/
def SYSTEM_PROMPT : String :=
  "\nOn every message you will be provided with a prompt and a list of devices, containing the device id, name, domain, state, and actions that can be performed.\nThe sections of the string are delimited by the string \"<>\"\n\nJSON Template: \x7b \"entities\": [ \x7b \"id\": \"\", \"domain\": \"\", \"action\": \"\" \x7d ], \"assistant\": \"\" \x7d\n\nDetermine if the provided prompt is a command related to the provided entities. If the prompt is a command, respond only in JSON.\nIf the prompt is a question, do not execute a command, simply answer the question.\n\nIf the prompt is a command then:\n    - Determine which entities relate to the above prompt and which action should be taken on those entities.\n    - Respond only in the format of the above JSON Template.\n    - Fill in the \"assistant\" field as a natural language responds for the action being taken.\n    - Respond only with the JSON Template.\n\nIf it is not a command, answer the user\x27s questions about the world truthfully.\n"

/-- One entry of the per-turn entity snapshot: the registry entry (possibly
absent), its conversation exposure flag, display name, domain and the
current state string for one id of `hass.states.async_entity_ids()`. -/
structure EntityReg where
  entityId : String
  present : Bool
  shouldExpose : Bool
  name : Option String
  domain : String
  state : String
deriving DecidableEq

/-- Python truthiness fallback `opt or default` for an optional string
(`entity.name or entity_id`): `None` and the empty string are falsy. -/
def pyOr (o : Option String) (d : String) : String :=
  match o with
  | none => d
  | some s => if s = "" then d else s

/-- Python truthiness fallback `s or default` for a string
(`status_string or "unknown"`). -/
def strOr (s d : String) : String :=
  if s = "" then d else s

/-- One substitution of `ENTITY_TEMPLATE` from const.py:
`$id<>$name<>$domain<>$status<>$action` followed by a newline, where the
action field is `','.join(all_services.get(entity.domain, {}).keys())`. -/
def entityLine (services : String → List String) (e : EntityReg) : String :=
  e.entityId ++ "<>" ++ pyOr e.name e.entityId ++ "<>" ++ e.domain ++ "<>"
    ++ strOr e.state "unknown" ++ "<>"
    ++ String.intercalate "," (services e.domain) ++ "\n"

/-- The accumulation loop over `entity_ids` building `entities_template`:
entries that are missing from the registry or not exposed to the
conversation assistant are skipped. -/
def buildEntitiesTemplate (services : String → List String)
    (regs : List EntityReg) : String :=
  regs.foldl
    (fun acc e =>
      if e.present && e.shouldExpose then acc ++ entityLine services e else acc)
    ""

/-- Substitution of `PROMPT_TEMPLATE` from const.py:
`Entities:\n$entities\n\nPrompt: "$prompt"\n`. -/
def renderPrompt (entitiesText : String) (userText : String) : String :=
  "Entities:\n" ++ entitiesText ++ "\n\nPrompt: \"" ++ userText ++ "\"\n"

/-- Two-pass JSON extraction (lines 221–243 of __init__.py): a direct parse
of the full content, then — whenever a `\x7b` exists (the `end_idx` test
compares `rfind + 1`, which is never `-1`, so only `start_idx` matters) — a
parse of the substring from the first `\x7b` to the last `\x7d` inclusive,
which overwrites the first result on success and keeps it on failure. -/
def extractJson (loads : String → Option Json) (content : String) :
    Option Json :=
  let first := loads content
  let cs := content.data
  let start := findChar cs lbrace
  let stop := rfindChar cs rbrace + 1
  if start ≠ -1 ∧ stop ≠ -1 then
    match loads (String.mk (pySlice cs start.toNat stop.toNat)) with
    | some j => some j
    | none => first
  else first

/-- How the dispatch loop terminated: normally, by a `KeyError` (caught by
the surrounding `try`), or by a `TypeError` (uncaught, aborting the turn). -/
inductive LoopExit where
  | ok
  | keyErr
  | typeErr
deriving DecidableEq

/-- The observable effects of the dispatch loop: the `has_service` queries
made, the `async_call` invocations made, and how the loop exited. -/
structure DispatchRes where
  queries : List (Json × Json)
  calls : List (Json × Json × Json)
  exit : LoopExit

/-- String extraction from a JSON value; `has_service` looks its arguments
up in string-keyed tables, so non-string arguments simply find nothing. -/
def asStr : Json → Option String
  | .str s => some s
  | _ => none

/-- `self.hass.services.has_service(domain, action)` on decoded values. -/
def svcKnown (hasSvc : String → String → Bool) (d a : Json) : Bool :=
  match asStr d, asStr a with
  | some d', some a' => hasSvc d' a'
  | _, _ => false

/-- The body of `for entity in json_response["entities"]` (lines 251–255):
per item, `entity['domain']` and `entity['action']` are subscripted (a
missing key raises `KeyError`, caught outside the loop, so the rest of the
batch is abandoned), `has_service` is queried, and on a hit the service is
invoked with `entity['id']` (again a possible `KeyError`).  A non-dict item
raises `TypeError` on the string subscript, which nothing catches. -/
def processItems (hasSvc : String → String → Bool) :
    List Json → DispatchRes
  | [] => ⟨[], [], .ok⟩
  | item :: rest =>
      match item with
      | .obj fields =>
          match jLookup fields "domain" with
          | none => ⟨[], [], .keyErr⟩
          | some d =>
              match jLookup fields "action" with
              | none => ⟨[], [], .keyErr⟩
              | some a =>
                  if svcKnown hasSvc d a then
                    match jLookup fields "id" with
                    | none => ⟨[(d, a)], [], .keyErr⟩
                    | some i =>
                        let r := processItems hasSvc rest
                        ⟨(d, a) :: r.queries, (d, a, i) :: r.calls, r.exit⟩
                  else
                    let r := processItems hasSvc rest
                    ⟨(d, a) :: r.queries, r.calls, r.exit⟩
      | _ => ⟨[], [], .typeErr⟩

/-- Iterating the value found under `"entities"`: a list iterates its
items; an empty string or empty dict iterates nothing; a non-empty string
or dict yields string items whose subscript raises `TypeError`; any other
value is not iterable and raises `TypeError` immediately. -/
def iterEntities (hasSvc : String → String → Bool) : Json → DispatchRes
  | .arr items => processItems hasSvc items
  | .str s => if s = "" then ⟨[], [], .ok⟩ else ⟨[], [], .typeErr⟩
  | .obj [] => ⟨[], [], .ok⟩
  | .obj (_ :: _) => ⟨[], [], .typeErr⟩
  | _ => ⟨[], [], .typeErr⟩

/-- The guarded dispatch block: `json_response["entities"]` raising
`KeyError` (absent key) is caught and treated as zero actions. -/
def dispatchFromPayload (hasSvc : String → String → Bool)
    (fields : List (String × Json)) : DispatchRes :=
  match jLookup fields "entities" with
  | none => ⟨[], [], .keyErr⟩
  | some v => iterEntities hasSvc v

/-- An exception escaping `async_process` uncaught. -/
inductive PyError where
  | unboundLocalConversationId
  | typeError
deriving DecidableEq

/-- The response carried by the returned `ConversationResult`: either
`async_set_error(UNKNOWN, msg)` or `async_set_speech(reply)`. -/
inductive Response where
  | errorReply (msg : String)
  | speech (reply : Json)

/-- The value of a `ConversationResult`. -/
structure ConvResult where
  response : Response
  conversationId : String

/-- Everything observable about one call of `async_process`: the returned
result (or escaped exception), the history store afterwards, the message
lists sent to the chat client, and the registry queries and service calls
performed. -/
structure TurnOutcome where
  result : Except PyError ConvResult
  history : HistStore
  llmRequests : List (List Message)
  queries : List (Json × Json)
  calls : List (Json × Json × Json)

/-- The external collaborators of one turn: the outcome of rendering the
configurable preamble template, the ulid generated for a new conversation,
the service table, the entity snapshot, the service registry predicate,
the chat client, and the stdlib JSON decoder. -/
structure Env where
  renderPreamble : Except String String
  freshId : String
  services : String → List String
  entities : List EntityReg
  hasService : String → String → Bool
  llm : List Message → Except String String
  jsonLoads : String → Option Json

/-- The single seed message of a new conversation (line 140):
role `system`, content the rendered preamble plus `SYSTEM_PROMPT`. -/
def seedMessages (prompt : String) : List Message :=
  [⟨"system", .str (prompt ++ SYSTEM_PROMPT)⟩]

/-- The resolved session of a turn. -/
structure Resolved where
  cid : String
  msgs : List Message
  isNew : Bool

/-- Lines 132–140: continue an existing conversation when the incoming id
is a key of `self.history`, otherwise mint a fresh ulid and seed. -/
def resolveSession (env : Env) (hist : HistStore) (convId : Option String)
    (prompt : String) : Resolved :=
  match convId with
  | some cid =>
      match histGet hist cid with
      | some ms => ⟨cid, ms, false⟩
      | none => ⟨env.freshId, seedMessages prompt, true⟩
  | none => ⟨env.freshId, seedMessages prompt, true⟩

/-- The `str()` of the `KeyError` raised by `json_response['assistant']`,
as interpolated into the user-visible message at line 272. -/
def assistantKeyErrText : String := "\x27assistant\x27"

/-- The success terminal state (lines 279–287): append the assistant reply
to the working message list and persist it under the conversation id. -/
def successOutcome (cid : String) (msgs1 : List Message) (hist1 : HistStore)
    (sent : List Message) (reply : Json)
    (queries : List (Json × Json)) (calls : List (Json × Json × Json)) :
    TurnOutcome :=
  ⟨.ok ⟨.speech reply, cid⟩,
   histSet hist1 cid (msgs1 ++ [⟨"assistant", reply⟩]),
   [sent], queries, calls⟩

/-- Lines 246–287 for a decoded JSON object: run the guarded dispatch
block, then read `json_response['assistant']`; a `TypeError` from the
dispatch block escapes, a missing `assistant` key returns the error reply
without touching the store, and otherwise the turn succeeds. -/
def afterDispatch (cid : String) (msgs1 : List Message) (hist1 : HistStore)
    (sent : List Message) (fields : List (String × Json))
    (d : DispatchRes) : TurnOutcome :=
  match d.exit with
  | .typeErr => ⟨.error .typeError, hist1, [sent], d.queries, d.calls⟩
  | _ =>
      match jLookup fields "assistant" with
      | none =>
          ⟨.ok ⟨.errorReply
              ("Sorry, there was an error understanding OpenAI: "
                ++ assistantKeyErrText), cid⟩,
           hist1, [sent], d.queries, d.calls⟩
      | some av => successOutcome cid msgs1 hist1 sent av d.queries d.calls

/-- The history store as it stands right after line 186: for a continuing
conversation, `messages` (line 134) aliases the stored list, so appending
the user text mutates the store in place before the chat call; for a new
conversation only the local list exists. -/
def hist1Of (hist : HistStore) (text : String) (r : Resolved) : HistStore :=
  if r.isNew then hist else
    histSet hist r.cid (r.msgs ++ [⟨"user", .str text⟩])

/-- Lines 142–287, the turn from the entity snapshot onward, given the
resolved session: build the prompt, append the user messages (the rendered
prompt to the outgoing list and the raw utterance to the history list),
call the chat client, extract, dispatch and reply.  A decoded payload
equal to JSON `null` is Python `None` and is indistinguishable from a
failed parse at line 246, and a decoded non-object, non-null payload
raises `TypeError` at the `json_response["entities"]` subscript of
line 251, which nothing catches. -/
def turnAfterSession (env : Env) (hist : HistStore) (text : String)
    (r : Resolved) : TurnOutcome :=
  let promptRender :=
    renderPrompt (buildEntitiesTemplate env.services env.entities) text
  let sent := r.msgs ++ [⟨"user", .str promptRender⟩]
  let msgs1 := r.msgs ++ [⟨"user", .str text⟩]
  let hist1 := hist1Of hist text r
  match env.llm sent with
  | .error errm =>
      ⟨.ok ⟨.errorReply
          ("Sorry, I had a problem talking to OpenAI: " ++ errm), r.cid⟩,
       hist1, [sent], [], []⟩
  | .ok content =>
      match extractJson env.jsonLoads content with
      | none => successOutcome r.cid msgs1 hist1 sent (.str content) [] []
      | some .null =>
          successOutcome r.cid msgs1 hist1 sent (.str content) [] []
      | some (.obj fields) =>
          afterDispatch r.cid msgs1 hist1 sent fields
            (dispatchFromPayload env.hasService fields)
      | some _ => ⟨.error .typeError, hist1, [sent], [], []⟩

/-- The whole of `OpenAIAgent.async_process` (lines 99–287).  The
`TemplateError` handler at lines 122–129 builds a localized error response
but its `return` evaluates `conversation_id`, a local that is only
assigned later (lines 133/137), so the turn raises `UnboundLocalError`
instead of returning the response. -/
def asyncProcess (env : Env) (hist : HistStore) (text : String)
    (convId : Option String) : TurnOutcome :=
  match env.renderPreamble with
  | .error _ => ⟨.error .unboundLocalConversationId, hist, [], [], []⟩
  | .ok prompt =>
      turnAfterSession env hist text (resolveSession env hist convId prompt)

/-- A structured action request with all three fields, as decoded from a
payload that follows the JSON template of the system prompt. -/
structure ActionRequest where
  id : String
  domain : String
  action : String
deriving DecidableEq

/-- The decoded JSON object of one well-formed action request. -/
def actionJson (a : ActionRequest) : Json :=
  .obj [("id", .str a.id), ("domain", .str a.domain), ("action", .str a.action)]

/-- The decoded JSON object of a payload with both `entities` and
`assistant` keys, the `entities` value a list of well-formed requests. -/
def payloadJson (items : List ActionRequest) (asst : String) : Json :=
  .obj [("entities", .arr (items.map actionJson)), ("assistant", .str asst)]

/-- The session-history invariant: the first message has role `system`
and carries some rendered preamble followed by `SYSTEM_PROMPT`. -/
def FirstIsSystem (h : List Message) : Prop :=
  ∃ p rest, h = Message.mk "system" (Json.str (p ++ SYSTEM_PROMPT)) :: rest

/-- Decoded values whose `["entities"]` subscript raises `TypeError`:
everything except an object (and except JSON `null`, which is Python
`None` and is filtered out before the subscript). -/
def isNonDictValue : Json → Bool
  | .null => false
  | .obj _ => false
  | _ => true

/-- An environment template shared by the concrete test scenarios. -/
def mkEnv (pre : Except String String)
    (llmf : List Message → Except String String)
    (loads : String → Option Json) (hs : String → String → Bool) : Env :=
  { renderPreamble := pre
    freshId := "NEW"
    services := fun _ => []
    entities := []
    hasService := hs
    llm := llmf
    jsonLoads := loads }

/-- A scenario whose only external event is a plain-text chat reply. -/
def plainEnv (content : String) : Env :=
  mkEnv (.ok "P") (fun _ => .ok content) (fun _ => none) (fun _ _ => false)

/-- Scenario: the preamble template is malformed. -/
def c1Env : Env :=
  mkEnv (.error "bad template") (fun _ => .ok "hi") (fun _ => none)
    (fun _ _ => false)

/-- Scenario: the chat call fails with a provider error. -/
def c2Env : Env :=
  mkEnv (.ok "P") (fun _ => .error "boom") (fun _ => none) (fun _ _ => false)

/-- A store holding one continuing conversation `c`. -/
def c2Hist : HistStore := [("c", [⟨"system", Json.str "s"⟩])]

/-- A raw chat reply whose payload has `entities` but no `assistant`. -/
def c3Raw : String :=
  "\x7b\"entities\":[\x7b\"id\":\"light.kitchen\",\"domain\":\"light\",\"action\":\"turn_on\"\x7d]\x7d"

/-- The decoded value of `c3Raw`. -/
def c3Payload : Json :=
  .obj [("entities", .arr [actionJson ⟨"light.kitchen", "light", "turn_on"⟩])]

/-- Scenario: payload without an `assistant` key, one dispatchable action. -/
def c3Env : Env :=
  mkEnv (.ok "P") (fun _ => .ok c3Raw)
    (fun s => if s = c3Raw then some c3Payload else none)
    (fun d a => d == "light" && a == "turn_on")

/-- A batch with one unknown-capability action and one known one. -/
def c4Items : List ActionRequest :=
  [⟨"x", "foo", "bar"⟩, ⟨"light.kitchen", "light", "turn_on"⟩]

/-- A raw chat reply carrying the batch `c4Items`. -/
def c4Raw : String :=
  "\x7b\"entities\":[\x7b\"id\":\"x\",\"domain\":\"foo\",\"action\":\"bar\"\x7d,\x7b\"id\":\"light.kitchen\",\"domain\":\"light\",\"action\":\"turn_on\"\x7d],\"assistant\":\"All done\"\x7d"

/-- Scenario for the partial-failure policy on well-formed batches. -/
def c4Env : Env :=
  mkEnv (.ok "P") (fun _ => .ok c4Raw)
    (fun s => if s = c4Raw then some (payloadJson c4Items "All done") else none)
    (fun d a => d == "light" && a == "turn_on")

/-- A batch whose first entry is missing its `action` key and whose second
entry is a well-formed, dispatchable request. -/
def c4CtPayload : Json :=
  .obj [("entities",
         .arr [.obj [("id", .str "x"), ("domain", .str "light")],
               actionJson ⟨"light.kitchen", "light", "turn_on"⟩]),
        ("assistant", .str "done")]

/-- A raw chat reply carrying `c4CtPayload`. -/
def c4CtRaw : String :=
  "\x7b\"entities\":[\x7b\"id\":\"x\",\"domain\":\"light\"\x7d,\x7b\"id\":\"light.kitchen\",\"domain\":\"light\",\"action\":\"turn_on\"\x7d],\"assistant\":\"done\"\x7d"

/-- Scenario: an entry missing a key ahead of a valid entry. -/
def c4CtEnv : Env :=
  mkEnv (.ok "P") (fun _ => .ok c4CtRaw)
    (fun s => if s = c4CtRaw then some c4CtPayload else none)
    (fun d a => d == "light" && a == "turn_on")

/-- The same scenario with the malformed entry removed. -/
def c4CtEnv2 : Env :=
  mkEnv (.ok "P") (fun _ => .ok c4CtRaw)
    (fun s =>
      if s = c4CtRaw then
        some (payloadJson [⟨"light.kitchen", "light", "turn_on"⟩] "done")
      else none)
    (fun d a => d == "light" && a == "turn_on")

/-- The boundary raw reply: JSON prefixed by prose. -/
def c5Raw : String :=
  "Sure thing! \x7b\"entities\":[],\"assistant\":\"Done.\"\x7d"

/-- The brace-bounded substring of `c5Raw`. -/
def c5Sub : String := "\x7b\"entities\":[],\"assistant\":\"Done.\"\x7d"

/-- A decoder behaving as `json.loads` does on the two strings the
boundary scenario feeds it: the full prose-prefixed text is not JSON,
the brace-bounded substring is. -/
def c5Loads : String → Option Json :=
  fun s => if s = c5Sub then some (payloadJson [] "Done.") else none

/-- Scenario: prose-prefixed payload recovered by the second pass. -/
def c5Env : Env :=
  mkEnv (.ok "P") (fun _ => .ok c5Raw) c5Loads (fun _ _ => false)

/-- Scenario: a brace-free raw reply that is itself valid JSON. -/
def c6CtEnv : Env :=
  mkEnv (.ok "P") (fun _ => .ok "42")
    (fun s => if s = "42" then some (.num 42) else none) (fun _ _ => false)

/-- The service table of the one-light scenario. -/
def c7Svc : String → List String :=
  fun d => if d == "light" then ["turn_on", "turn_off"] else []

/-- The one exposed light entity of the prompt-rendering scenario. -/
def c7Reg : EntityReg :=
  ⟨"light.kitchen", true, true, some "Kitchen", "light", "off"⟩

/-- A raw reply that decodes to a JSON array, with braces inside a string
element so that the second pass replaces it by an object. -/
def c9Raw : String := "[\"\x7b\x7d\"]"

/-- Scenario: array payload rescued into an object by the second pass. -/
def c9CtEnv : Env :=
  mkEnv (.ok "P") (fun _ => .ok c9Raw)
    (fun s =>
      if s = c9Raw then some (.arr [.str "\x7b\x7d"])
      else if s = "\x7b\x7d" then some (.obj []) else none)
    (fun _ _ => false)

/-- Scenario: a brace-free raw reply decoding to a JSON array. -/
def c9Env : Env :=
  mkEnv (.ok "P") (fun _ => .ok "[1, 2]")
    (fun s => if s = "[1, 2]" then some (.arr [.num 1, .num 2]) else none)
    (fun _ _ => false)

/-- Concatenation of a list of strings in order, used to state that the
entity block is exactly one rendered line per exposed entity. -/
def concatAll : List String → String
  | [] => ""
  | s :: rest => s ++ concatAll rest

/- ------------------------------------------------------------------ -/
/- Store lemmas and loop characterizations.                           -/
/- ------------------------------------------------------------------ -/

theorem histGet_histSet (h : HistStore) (k k' : String) (v : List Message) :
    histGet (histSet h k v) k' = if k = k' then some v else histGet h k' := by
  induction h with
  | nil => simp [histSet, histGet]
  | cons kv rest ih =>
      obtain ⟨a, w⟩ := kv
      by_cases h1 : a = k
      · subst h1
        by_cases h2 : a = k' <;> simp [histSet, histGet, h2]
      · by_cases h2 : a = k' <;> by_cases h3 : k = k' <;>
          simp_all [histSet, histGet]

theorem histGet_histSet_self (h : HistStore) (k : String) (v : List Message) :
    histGet (histSet h k v) k = some v := by
  simp [histGet_histSet]

theorem processItems_cons (hs : String → String → Bool) (a : ActionRequest)
    (l : List Json) :
    processItems hs (actionJson a :: l) =
      if hs a.domain a.action then
        ⟨(Json.str a.domain, Json.str a.action) :: (processItems hs l).queries,
         (Json.str a.domain, Json.str a.action, Json.str a.id)
           :: (processItems hs l).calls,
         (processItems hs l).exit⟩
      else
        ⟨(Json.str a.domain, Json.str a.action) :: (processItems hs l).queries,
         (processItems hs l).calls, (processItems hs l).exit⟩ := rfl

theorem processItems_actionJson (hs : String → String → Bool)
    (items : List ActionRequest) :
    processItems hs (items.map actionJson) =
      ⟨items.map (fun a => (Json.str a.domain, Json.str a.action)),
       (items.filter (fun a => hs a.domain a.action)).map
         (fun a => (Json.str a.domain, Json.str a.action, Json.str a.id)),
       .ok⟩ := by
  induction items with
  | nil => rfl
  | cons a rest ih =>
      by_cases h : hs a.domain a.action <;>
        simp [processItems_cons, ih, h, List.filter_cons]

theorem afterDispatch_llmRequests (cid : String) (msgs1 : List Message)
    (hist1 : HistStore) (sent : List Message)
    (fields : List (String × Json)) (d : DispatchRes) :
    (afterDispatch cid msgs1 hist1 sent fields d).llmRequests = [sent] := by
  unfold afterDispatch
  rcases d with ⟨q, c, e⟩
  cases e <;> simp [successOutcome] <;>
    cases jLookup fields "assistant" <;> simp [successOutcome]

theorem afterDispatch_dichotomy (cid : String) (msgs1 : List Message)
    (hist1 : HistStore) (sent : List Message)
    (fields : List (String × Json)) (d : DispatchRes) :
    ((afterDispatch cid msgs1 hist1 sent fields d).history = hist1 ∧
      ∀ reply cid', (afterDispatch cid msgs1 hist1 sent fields d).result ≠
        .ok ⟨.speech reply, cid'⟩) ∨
    (∃ reply, (afterDispatch cid msgs1 hist1 sent fields d).result =
        .ok ⟨.speech reply, cid⟩ ∧
      (afterDispatch cid msgs1 hist1 sent fields d).history =
        histSet hist1 cid (msgs1 ++ [⟨"assistant", reply⟩])) := by
  rcases d with ⟨q, c, e⟩
  cases e with
  | typeErr => exact Or.inl ⟨rfl, fun reply cid' h => by simp [afterDispatch] at h⟩
  | ok =>
      rcases ha : jLookup fields "assistant" with _ | av
      · exact Or.inl ⟨by simp [afterDispatch, ha],
          fun reply cid' h => by simp [afterDispatch, ha] at h⟩
      · exact Or.inr ⟨av, by simp [afterDispatch, ha, successOutcome],
          by simp [afterDispatch, ha, successOutcome]⟩
  | keyErr =>
      rcases ha : jLookup fields "assistant" with _ | av
      · exact Or.inl ⟨by simp [afterDispatch, ha],
          fun reply cid' h => by simp [afterDispatch, ha] at h⟩
      · exact Or.inr ⟨av, by simp [afterDispatch, ha, successOutcome],
          by simp [afterDispatch, ha, successOutcome]⟩

theorem turnAfterSession_llmRequests (env : Env) (hist : HistStore)
    (text : String) (r : Resolved) :
    (turnAfterSession env hist text r).llmRequests =
      [r.msgs ++ [⟨"user", Json.str
        (renderPrompt (buildEntitiesTemplate env.services env.entities)
          text)⟩]] := by
  simp only [turnAfterSession]
  split
  · rfl
  · split
    · rfl
    · rfl
    · exact afterDispatch_llmRequests _ _ _ _ _ _
    · rfl

theorem turnAfterSession_dichotomy (env : Env) (hist : HistStore)
    (text : String) (r : Resolved) :
    ((turnAfterSession env hist text r).history = hist1Of hist text r ∧
      ∀ reply cid, (turnAfterSession env hist text r).result ≠
        .ok ⟨.speech reply, cid⟩) ∨
    (∃ reply, (turnAfterSession env hist text r).result =
        .ok ⟨.speech reply, r.cid⟩ ∧
      (turnAfterSession env hist text r).history =
        histSet (hist1Of hist text r) r.cid
          ((r.msgs ++ [⟨"user", Json.str text⟩])
            ++ [⟨"assistant", reply⟩])) := by
  simp only [turnAfterSession]
  split
  · exact Or.inl ⟨rfl, fun reply cid h => by simp at h⟩
  · split
    · exact Or.inr ⟨_, rfl, by simp [successOutcome]⟩
    · exact Or.inr ⟨_, rfl, by simp [successOutcome]⟩
    · rename_i c fields heq
      exact afterDispatch_dichotomy r.cid
        (r.msgs ++ [⟨"user", Json.str text⟩]) (hist1Of hist text r)
        (r.msgs ++ [⟨"user", Json.str
          (renderPrompt (buildEntitiesTemplate env.services env.entities)
            text)⟩])
        fields (dispatchFromPayload env.hasService fields)
    · exact Or.inl ⟨rfl, fun reply cid h => by simp at h⟩

/- ------------------------------------------------------------------ -/
/- Claim theorems.                                                    -/
/- ------------------------------------------------------------------ -/

/-- C1: when the preamble template is malformed the turn makes no model
call and leaves the history store untouched, for every utterance and
conversation identifier — but instead of returning the localized error
reply it raises: the error-reply `return` at line 128 evaluates the local
`conversation_id`, which is only assigned later (lines 133/137), so
`async_process` dies with an `UnboundLocalError` and no
`ConversationResult` is produced. -/
theorem c1_template_error_short_circuits (env : Env) (hist : HistStore)
    (text : String) (convId : Option String) (e : String)
    (hp : env.renderPreamble = .error e) :
    asyncProcess env hist text convId =
      ⟨.error .unboundLocalConversationId, hist, [], [], []⟩ := by
  simp [asyncProcess, hp]

/-- Witness for C1 at a concrete malformed-template scenario. -/
theorem c1_template_error_short_circuits_witness :
    asyncProcess c1Env [] "turn on the light" none =
      ⟨.error .unboundLocalConversationId, [], [], [], []⟩ :=
  c1_template_error_short_circuits c1Env [] "turn on the light" none
    "bad template" rfl

/-- C2 (amended): a failed chat call returns the apology carrying the
provider error detail; the store is unchanged for a newly created
conversation, but for a continuing conversation the user message has
already been appended in place to the stored history (line 186 mutates
the aliased list) before the call, and that append survives the error. -/
theorem c2_provider_error_amended (env : Env) (hist : HistStore)
    (text p errm : String)
    (hp : env.renderPreamble = .ok p)
    (hllm : env.llm = fun _ => .error errm) :
    (∀ convId,
      (asyncProcess env hist text convId).result =
        .ok ⟨.errorReply
              ("Sorry, I had a problem talking to OpenAI: " ++ errm),
             (resolveSession env hist convId p).cid⟩) ∧
    ((asyncProcess env hist text none).history = hist) ∧
    (∀ cid, histGet hist cid = none →
      (asyncProcess env hist text (some cid)).history = hist) ∧
    (∀ cid ms, histGet hist cid = some ms →
      (asyncProcess env hist text (some cid)).history =
        histSet hist cid (ms ++ [⟨"user", Json.str text⟩])) := by
  refine ⟨?_, ?_, ?_, ?_⟩
  · intro convId
    simp [asyncProcess, hp, turnAfterSession, hllm]
  · simp [asyncProcess, hp, turnAfterSession, hllm, resolveSession, hist1Of]
  · intro cid hc
    simp [asyncProcess, hp, turnAfterSession, hllm, resolveSession, hc,
      hist1Of]
  · intro cid ms hc
    simp [asyncProcess, hp, turnAfterSession, hllm, resolveSession, hc,
      hist1Of]

/-- Witness for C2 (amended) at a concrete provider failure. -/
theorem c2_provider_error_amended_witness :
    (∀ convId,
      (asyncProcess c2Env c2Hist "hi" convId).result =
        .ok ⟨.errorReply "Sorry, I had a problem talking to OpenAI: boom",
             (resolveSession c2Env c2Hist convId "P").cid⟩) ∧
    ((asyncProcess c2Env c2Hist "hi" none).history = c2Hist) ∧
    (∀ cid, histGet c2Hist cid = none →
      (asyncProcess c2Env c2Hist "hi" (some cid)).history = c2Hist) ∧
    (∀ cid ms, histGet c2Hist cid = some ms →
      (asyncProcess c2Env c2Hist "hi" (some cid)).history =
        histSet c2Hist cid (ms ++ [⟨"user", Json.str "hi"⟩])) :=
  c2_provider_error_amended c2Env c2Hist "hi" "P" "boom" rfl rfl

/-- Counterexample to C2 as stated: for the continuing conversation `c`
the provider failure does leave a history mutation behind — the stored
transcript has gained the user message. -/
theorem c2_counterexample :
    (asyncProcess c2Env c2Hist "hi" (some "c")).result =
      .ok ⟨.errorReply "Sorry, I had a problem talking to OpenAI: boom",
           "c"⟩ ∧
    (asyncProcess c2Env c2Hist "hi" (some "c")).history =
      [("c", [⟨"system", Json.str "s"⟩, ⟨"user", Json.str "hi"⟩])] ∧
    (asyncProcess c2Env c2Hist "hi" (some "c")).history ≠ c2Hist := by
  refine ⟨rfl, rfl, ?_⟩
  intro h
  rw [show (asyncProcess c2Env c2Hist "hi" (some "c")).history =
      [("c", [(⟨"system", Json.str "s"⟩ : Message),
              ⟨"user", Json.str "hi"⟩])] from rfl] at h
  have h3 := congrArg (fun s : HistStore => (histGet s "c").map List.length) h
  simp [c2Hist, histGet] at h3

/-- C3 (amended): when the payload parses as an object without an
`assistant` key (and the dispatch block does not die with a `TypeError`),
the turn returns the user-visible error reply, every service call already
dispatched from the same payload remains executed (the outcome records
exactly the dispatch block's calls and queries), and no assistant message
is appended — but the store is only "still updated" for a continuing
conversation, where the user message was already appended in place; for a
newly created conversation nothing is stored at all under the returned
conversation id. -/
theorem c3_assistant_missing_amended (env : Env) (hist : HistStore)
    (text p content : String) (fields : List (String × Json))
    (hp : env.renderPreamble = .ok p)
    (hllm : env.llm = fun _ => .ok content)
    (hex : extractJson env.jsonLoads content = some (.obj fields))
    (hna : jLookup fields "assistant" = none)
    (hnt : (dispatchFromPayload env.hasService fields).exit ≠ .typeErr) :
    (∀ convId,
      (asyncProcess env hist text convId).result =
        .ok ⟨.errorReply ("Sorry, there was an error understanding OpenAI: "
            ++ assistantKeyErrText),
          (resolveSession env hist convId p).cid⟩ ∧
      (asyncProcess env hist text convId).calls =
        (dispatchFromPayload env.hasService fields).calls ∧
      (asyncProcess env hist text convId).queries =
        (dispatchFromPayload env.hasService fields).queries) ∧
    ((asyncProcess env hist text none).history = hist) ∧
    (∀ cid, histGet hist cid = none →
      (asyncProcess env hist text (some cid)).history = hist) ∧
    (∀ cid ms, histGet hist cid = some ms →
      (asyncProcess env hist text (some cid)).history =
        histSet hist cid (ms ++ [⟨"user", Json.str text⟩])) := by
  rcases hd : dispatchFromPayload env.hasService fields with ⟨q, c, ex⟩
  rw [hd] at hnt
  have hbody : ∀ (h1 : HistStore) (r : Resolved),
      turnAfterSession env h1 text r =
        ⟨.ok ⟨.errorReply ("Sorry, there was an error understanding OpenAI: "
            ++ assistantKeyErrText), r.cid⟩, hist1Of h1 text r,
         [r.msgs ++ [⟨"user", Json.str (renderPrompt
            (buildEntitiesTemplate env.services env.entities) text)⟩]],
         q, c⟩ := by
    intro h1 r
    cases ex with
    | typeErr => exact absurd rfl hnt
    | ok => simp [turnAfterSession, hllm, hex, hd, afterDispatch, hna]
    | keyErr => simp [turnAfterSession, hllm, hex, hd, afterDispatch, hna]
  refine ⟨?_, ?_, ?_, ?_⟩
  · intro convId
    simp [asyncProcess, hp, hbody, hd]
  · simp [asyncProcess, hp, hbody, resolveSession, hist1Of]
  · intro cid hc
    simp [asyncProcess, hp, hbody, resolveSession, hc, hist1Of]
  · intro cid ms hc
    simp [asyncProcess, hp, hbody, resolveSession, hc, hist1Of]

/-- Witness for C3 (amended) at the concrete assistant-less payload. -/
theorem c3_assistant_missing_amended_witness :
    (∀ convId,
      (asyncProcess c3Env [] "turn on the kitchen light" convId).result =
        .ok ⟨.errorReply ("Sorry, there was an error understanding OpenAI: "
            ++ assistantKeyErrText),
          (resolveSession c3Env [] convId "P").cid⟩ ∧
      (asyncProcess c3Env [] "turn on the kitchen light" convId).calls =
        (dispatchFromPayload c3Env.hasService
          [("entities", .arr [actionJson
            ⟨"light.kitchen", "light", "turn_on"⟩])]).calls ∧
      (asyncProcess c3Env [] "turn on the kitchen light" convId).queries =
        (dispatchFromPayload c3Env.hasService
          [("entities", .arr [actionJson
            ⟨"light.kitchen", "light", "turn_on"⟩])]).queries) ∧
    ((asyncProcess c3Env [] "turn on the kitchen light" none).history
      = []) ∧
    (∀ cid, histGet [] cid = none →
      (asyncProcess c3Env [] "turn on the kitchen light" (some cid)).history
        = []) ∧
    (∀ cid ms, histGet [] cid = some ms →
      (asyncProcess c3Env [] "turn on the kitchen light" (some cid)).history
        = histSet [] cid (ms ++ [⟨"user", Json.str
            "turn on the kitchen light"⟩])) :=
  c3_assistant_missing_amended c3Env [] "turn on the kitchen light" "P"
    c3Raw [("entities", .arr [actionJson ⟨"light.kitchen", "light",
      "turn_on"⟩])] rfl rfl rfl rfl (fun h => LoopExit.noConfusion h)

/-- Counterexample to C3 as stated: on a new conversation the same
assistant-less payload leaves the session store completely empty — the
history is not "still updated" — even though the action was dispatched
and the error reply returned. -/
theorem c3_counterexample :
    (asyncProcess c3Env [] "turn on the kitchen light" none).result =
      .ok ⟨.errorReply ("Sorry, there was an error understanding OpenAI: "
        ++ assistantKeyErrText), "NEW"⟩ ∧
    (asyncProcess c3Env [] "turn on the kitchen light" none).calls =
      [(Json.str "light", Json.str "turn_on", Json.str "light.kitchen")] ∧
    (asyncProcess c3Env [] "turn on the kitchen light" none).history = [] ∧
    histGet (asyncProcess c3Env [] "turn on the kitchen light" none).history
      "NEW" = none :=
  ⟨rfl, rfl, rfl, rfl⟩

/-- C4 (amended): for a batch of well-formed action requests, an action
whose (domain, action) capability is not registered is skipped without
aborting the batch — every item still gets exactly one registry query, the
calls are exactly the registered subset, and the turn succeeds; an absent
`entities` key is zero actions with a non-error outcome.  (The claim's
further promise that one *invalid* action cannot prevent the others is
false: a request missing a key aborts the rest of the batch, see the
counterexample.) -/
theorem c4_partial_failure_amended (env : Env) (hist : HistStore)
    (text : String) (convId : Option String) (p content : String)
    (fields : List (String × Json)) (asst : Json)
    (hp : env.renderPreamble = .ok p)
    (hllm : env.llm = fun _ => .ok content)
    (hex : extractJson env.jsonLoads content = some (.obj fields))
    (ha : jLookup fields "assistant" = some asst) :
    (∀ items : List ActionRequest,
      jLookup fields "entities" = some (.arr (items.map actionJson)) →
      (asyncProcess env hist text convId).result =
        .ok ⟨.speech asst, (resolveSession env hist convId p).cid⟩ ∧
      (asyncProcess env hist text convId).queries =
        items.map (fun a => (Json.str a.domain, Json.str a.action)) ∧
      (asyncProcess env hist text convId).calls =
        (items.filter (fun a => env.hasService a.domain a.action)).map
          (fun a => (Json.str a.domain, Json.str a.action,
            Json.str a.id))) ∧
    (jLookup fields "entities" = none →
      (asyncProcess env hist text convId).result =
        .ok ⟨.speech asst, (resolveSession env hist convId p).cid⟩ ∧
      (asyncProcess env hist text convId).queries = [] ∧
      (asyncProcess env hist text convId).calls = []) := by
  constructor
  · intro items he
    simp [asyncProcess, hp, turnAfterSession, hllm, hex, afterDispatch,
      dispatchFromPayload, he, iterEntities, processItems_actionJson, ha,
      successOutcome]
  · intro he
    simp [asyncProcess, hp, turnAfterSession, hllm, hex, afterDispatch,
      dispatchFromPayload, he, ha, successOutcome]

/-- Witness for C4 (amended): the unknown-capability action `foo.bar` is
skipped while `light.turn_on` still executes, and the turn succeeds. -/
theorem c4_partial_failure_amended_witness :
    (asyncProcess c4Env [] "turn on the kitchen light" none).result =
      .ok ⟨.speech (Json.str "All done"), "NEW"⟩ ∧
    (asyncProcess c4Env [] "turn on the kitchen light" none).queries =
      [(Json.str "foo", Json.str "bar"),
       (Json.str "light", Json.str "turn_on")] ∧
    (asyncProcess c4Env [] "turn on the kitchen light" none).calls =
      [(Json.str "light", Json.str "turn_on", Json.str "light.kitchen")] := by
  have h := (c4_partial_failure_amended c4Env [] "turn on the kitchen light"
    none "P" c4Raw
    [("entities", .arr (c4Items.map actionJson)),
     ("assistant", .str "All done")]
    (.str "All done") rfl rfl rfl rfl).1 c4Items rfl
  exact ⟨h.1, h.2.1, h.2.2⟩

/-- Counterexample to C4 as stated: a batch whose first entry is invalid
(missing its `action` key) prevents the valid second entry from
executing — zero service calls are made — although the same valid entry
does execute when the invalid one is absent; the turn itself still
succeeds either way. -/
theorem c4_counterexample :
    (asyncProcess c4CtEnv [] "turn on the kitchen light" none).result =
      .ok ⟨.speech (Json.str "done"), "NEW"⟩ ∧
    (asyncProcess c4CtEnv [] "turn on the kitchen light" none).queries
      = [] ∧
    (asyncProcess c4CtEnv [] "turn on the kitchen light" none).calls = [] ∧
    (asyncProcess c4CtEnv2 [] "turn on the kitchen light" none).calls =
      [(Json.str "light", Json.str "turn_on", Json.str "light.kitchen")] :=
  ⟨rfl, rfl, rfl, rfl⟩

/-- C5: whenever extraction produces a payload with both `entities` (a
list of well-formed requests) and `assistant` keys — whether directly or
recovered by the brace-bounded second pass — the reply is exactly the
payload's `assistant` value and every item of `entities` triggers exactly
one registry query, in order, with zero queries and zero calls for the
empty list. -/
theorem c5_round_trip (env : Env) (hist : HistStore) (text : String)
    (convId : Option String) (p content : String)
    (items : List ActionRequest) (asst : String)
    (hp : env.renderPreamble = .ok p)
    (hllm : env.llm = fun _ => .ok content)
    (hex : extractJson env.jsonLoads content =
      some (payloadJson items asst)) :
    (asyncProcess env hist text convId).result =
      .ok ⟨.speech (Json.str asst),
        (resolveSession env hist convId p).cid⟩ ∧
    (asyncProcess env hist text convId).queries =
      items.map (fun a => (Json.str a.domain, Json.str a.action)) ∧
    (items = [] → (asyncProcess env hist text convId).queries = [] ∧
      (asyncProcess env hist text convId).calls = []) := by
  have h1 : jLookup [("entities", Json.arr (items.map actionJson)),
      ("assistant", Json.str asst)] "assistant" = some (Json.str asst) := rfl
  have h2 : jLookup [("entities", Json.arr (items.map actionJson)),
      ("assistant", Json.str asst)] "entities" =
      some (Json.arr (items.map actionJson)) := rfl
  refine ⟨?_, ?_, ?_⟩
  · simp [asyncProcess, hp, turnAfterSession, hllm, hex, payloadJson,
      afterDispatch, dispatchFromPayload, h1, h2, iterEntities,
      processItems_actionJson, successOutcome]
  · simp [asyncProcess, hp, turnAfterSession, hllm, hex, payloadJson,
      afterDispatch, dispatchFromPayload, h1, h2, iterEntities,
      processItems_actionJson, successOutcome]
  · intro hi
    subst hi
    simp only [List.map_nil] at h1 h2
    simp [asyncProcess, hp, turnAfterSession, hllm, hex, payloadJson,
      afterDispatch, dispatchFromPayload, h1, h2, iterEntities,
      processItems, successOutcome]

/-- Witness for C5 at the spec's boundary scenario: prose-prefixed JSON
recovered by the second pass, empty `entities`, reply `Done.`. -/
theorem c5_round_trip_witness :
    (asyncProcess c5Env [] "close the door" none).result =
      .ok ⟨.speech (Json.str "Done."),
        (resolveSession c5Env [] none "P").cid⟩ ∧
    (asyncProcess c5Env [] "close the door" none).queries = [] ∧
    (asyncProcess c5Env [] "close the door" none).calls = [] := by
  have h := c5_round_trip c5Env [] "close the door" none "P" c5Raw []
    "Done." rfl rfl rfl
  exact ⟨h.1, h.2.1, (h.2.2 rfl).2⟩

/-- C6 (amended): for a raw reply containing neither `\x7b` nor `\x7d`
that the JSON decoder rejects, extraction yields no payload and the
user-visible reply is the raw model text unchanged.  The amendment adds
the decoder-rejection hypothesis: a brace-free reply that is valid JSON
on its own, such as `42`, is accepted by the first parse and then crashes
the turn (see the counterexample). -/
theorem c6_no_brace_raw_fallback (env : Env) (hist : HistStore)
    (text : String) (convId : Option String) (p content : String)
    (hp : env.renderPreamble = .ok p)
    (hllm : env.llm = fun _ => .ok content)
    (hl : findChar content.data lbrace = -1)
    (hr : rfindChar content.data rbrace = -1)
    (hjson : env.jsonLoads content = none) :
    extractJson env.jsonLoads content = none ∧
    (asyncProcess env hist text convId).result =
      .ok ⟨.speech (Json.str content),
           (resolveSession env hist convId p).cid⟩ := by
  have hex : extractJson env.jsonLoads content = none := by
    simp [extractJson, hl, hjson]
  exact ⟨hex, by simp [asyncProcess, hp, turnAfterSession, hllm, hex,
    successOutcome]⟩

/-- Witness for C6 (amended) at the boundary raw reply of the spec. -/
theorem c6_no_brace_raw_fallback_witness :
    extractJson (plainEnv "Hello! How can I help?").jsonLoads
      "Hello! How can I help?" = none ∧
    (asyncProcess (plainEnv "Hello! How can I help?") [] "hello" none).result
      = .ok ⟨.speech (Json.str "Hello! How can I help?"),
             (resolveSession (plainEnv "Hello! How can I help?") [] none
               "P").cid⟩ :=
  c6_no_brace_raw_fallback (plainEnv "Hello! How can I help?") [] "hello"
    none "P" "Hello! How can I help?" rfl rfl rfl rfl rfl

/-- Counterexample to C6 as stated: the brace-free raw reply `42` parses
as JSON on the first pass, so extraction does yield a payload, and the
turn then dies with a `TypeError` instead of replying with the raw text. -/
theorem c6_counterexample :
    extractJson c6CtEnv.jsonLoads "42" = some (.num 42) ∧
    (asyncProcess c6CtEnv [] "what is the answer" none).result =
      .error .typeError ∧
    ∀ res, (asyncProcess c6CtEnv [] "what is the answer" none).result ≠
      .ok res := by
  refine ⟨rfl, rfl, fun res h => ?_⟩
  have h2 : (Except.error PyError.typeError : Except PyError ConvResult) =
      .ok res := h
  exact Except.noConfusion h2

/-- C9 (amended): when the raw output decodes to a JSON value that is
neither an object nor null, and the text contains no `\x7b` (so the
second, brace-bounded pass cannot replace the value), the orchestrator
subscripts the value with `"entities"` and the turn dies with an uncaught
`TypeError`, performing no registry queries and no service calls.  The
restriction to brace-free text is forced by the counterexample: a second
pass over an embedded brace pair can swap the non-object for an object. -/
theorem c9_nonobject_payload_typeerror (env : Env) (hist : HistStore)
    (text : String) (convId : Option String) (p content : String) (v : Json)
    (hp : env.renderPreamble = .ok p)
    (hllm : env.llm = fun _ => .ok content)
    (hjson : env.jsonLoads content = some v)
    (hv : isNonDictValue v = true)
    (hl : findChar content.data lbrace = -1) :
    (asyncProcess env hist text convId).result = .error .typeError ∧
    (asyncProcess env hist text convId).queries = [] ∧
    (asyncProcess env hist text convId).calls = [] := by
  have hex : extractJson env.jsonLoads content = some v := by
    simp [extractJson, hl, hjson]
  cases v <;>
    simp_all [asyncProcess, hp, turnAfterSession, hllm, isNonDictValue]

/-- Witness for C9 (amended) at a brace-free JSON-array reply. -/
theorem c9_nonobject_payload_typeerror_witness :
    (asyncProcess c9Env [] "list two numbers" none).result =
      .error .typeError ∧
    (asyncProcess c9Env [] "list two numbers" none).queries = [] ∧
    (asyncProcess c9Env [] "list two numbers" none).calls = [] :=
  c9_nonobject_payload_typeerror c9Env [] "list two numbers" none "P"
    "[1, 2]" (.arr [.num 1, .num 2]) rfl rfl rfl rfl rfl

/-- The foldl of the entity loop over an all-exposed snapshot is the
plain concatenation of the rendered lines, in order. -/
theorem foldlEntities_exposed (svc : String → List String) :
    ∀ (regs : List EntityReg) (acc : String),
      (∀ e ∈ regs, e.present = true ∧ e.shouldExpose = true) →
      List.foldl (fun acc e =>
        if e.present && e.shouldExpose then acc ++ entityLine svc e
        else acc) acc regs = acc ++ concatAll (regs.map (entityLine svc))
  | [], acc, _ => by simp [concatAll]
  | e :: rest, acc, hexp => by
      have he := hexp e (List.mem_cons_self e rest)
      have ih := foldlEntities_exposed svc rest (acc ++ entityLine svc e)
        (fun x hx => hexp x (List.mem_cons_of_mem e hx))
      have hstep : (if (e.present && e.shouldExpose) = true
          then acc ++ entityLine svc e else acc)
          = acc ++ entityLine svc e := by
        simp [he.1, he.2]
      rw [List.foldl_cons, hstep, ih, List.map_cons, concatAll,
        String.append_assoc]

/-- C7: for every non-empty all-exposed entity snapshot and arbitrary
utterance, the rendered prompt is the fixed header, then exactly one
rendered line (`id<>name<>domain<>status<>actions`, newline-terminated)
per exposed entity in the order of the input sequence, then the utterance
surrounded by literal double quotes. -/
theorem c7_render_prompt (svc : String → List String)
    (regs : List EntityReg) (text : String)
    (hne : regs ≠ [])
    (hexp : ∀ e ∈ regs, e.present = true ∧ e.shouldExpose = true) :
    renderPrompt (buildEntitiesTemplate svc regs) text =
      "Entities:\n" ++ concatAll (regs.map (entityLine svc))
        ++ "\n\nPrompt: \"" ++ text ++ "\"\n" ∧
    ∃ pre post, renderPrompt (buildEntitiesTemplate svc regs) text =
      pre ++ ("\"" ++ text ++ "\"") ++ post := by
  have hb : buildEntitiesTemplate svc regs =
      concatAll (regs.map (entityLine svc)) := by
    have h := foldlEntities_exposed svc regs "" hexp
    simpa [buildEntitiesTemplate] using h
  constructor
  · rw [← hb]
    rfl
  · refine ⟨"Entities:\n" ++ buildEntitiesTemplate svc regs
      ++ "\n\nPrompt: ", "\n", ?_⟩
    show "Entities:\n" ++ buildEntitiesTemplate svc regs ++ "\n\nPrompt: \""
        ++ text ++ "\"\n" =
      ("Entities:\n" ++ buildEntitiesTemplate svc regs ++ "\n\nPrompt: ")
        ++ ("\"" ++ text ++ "\"") ++ "\n"
    rw [show ("\n\nPrompt: \"" : String) = "\n\nPrompt: " ++ "\"" from rfl,
      show ("\"\n" : String) = "\"" ++ "\n" from rfl]
    simp only [String.append_assoc]

/-- Witness for C7 at the one-light scenario of the spec. -/
theorem c7_render_prompt_witness :
    renderPrompt (buildEntitiesTemplate c7Svc [c7Reg])
        "turn on the kitchen light" =
      "Entities:\n" ++ concatAll ([c7Reg].map (entityLine c7Svc))
        ++ "\n\nPrompt: \"" ++ "turn on the kitchen light" ++ "\"\n" ∧
    ∃ pre post, renderPrompt (buildEntitiesTemplate c7Svc [c7Reg])
        "turn on the kitchen light" =
      pre ++ ("\"" ++ "turn on the kitchen light" ++ "\"") ++ post :=
  c7_render_prompt c7Svc [c7Reg] "turn on the kitchen light"
    (List.cons_ne_nil _ _)
    (by intro e he
        rw [List.mem_singleton] at he
        subst he
        exact ⟨rfl, rfl⟩)

/-- Case analysis on the session resolution of lines 132–140: either the
turn mints a fresh conversation (no incoming id, or an unknown one), or it
continues an existing stored transcript by reference. -/
theorem resolveSession_spec (env : Env) (hist : HistStore)
    (convId : Option String) (p : String) :
    ((resolveSession env hist convId p).isNew = true ∧
     (resolveSession env hist convId p).cid = env.freshId ∧
     (resolveSession env hist convId p).msgs = seedMessages p ∧
     (convId = none ∨ ∃ c, convId = some c ∧ histGet hist c = none)) ∨
    (∃ c ms, convId = some c ∧ histGet hist c = some ms ∧
     resolveSession env hist convId p = ⟨c, ms, false⟩) := by
  cases convId with
  | none => exact Or.inl ⟨rfl, rfl, rfl, Or.inl rfl⟩
  | some c =>
      rcases hc : histGet hist c with _ | ms
      · exact Or.inl ⟨by simp [resolveSession, hc],
          by simp [resolveSession, hc], by simp [resolveSession, hc],
          Or.inr ⟨c, rfl, hc⟩⟩
      · exact Or.inr ⟨c, ms, rfl, hc, by simp [resolveSession, hc]⟩

/-- C8: provided fresh ulids never collide with stored ids, every stored
transcript keeps starting with a `system` message carrying a rendered
preamble plus `SYSTEM_PROMPT`, every turn only appends to stored
transcripts, and a successful first turn of a new conversation stores
exactly the three messages `system`, `user` (raw utterance), `assistant`
under the returned conversation id. -/
theorem c8_history_invariant (env : Env) (hist : HistStore) (text : String)
    (convId : Option String)
    (hfresh : histGet hist env.freshId = none)
    (hinv : ∀ id h, histGet hist id = some h → FirstIsSystem h) :
    (∀ id h, histGet (asyncProcess env hist text convId).history id =
        some h → FirstIsSystem h) ∧
    (∀ id h, histGet hist id = some h → ∃ tail,
        histGet (asyncProcess env hist text convId).history id =
          some (h ++ tail)) ∧
    (∀ cid reply,
        (convId = none ∨ ∃ c, convId = some c ∧ histGet hist c = none) →
        (asyncProcess env hist text convId).result =
          .ok ⟨.speech reply, cid⟩ →
        ∃ p, env.renderPreamble = .ok p ∧
          histGet (asyncProcess env hist text convId).history cid =
            some [⟨"system", Json.str (p ++ SYSTEM_PROMPT)⟩,
                  ⟨"user", Json.str text⟩, ⟨"assistant", reply⟩]) := by
  rcases hpre : env.renderPreamble with e | p
  · have hall : asyncProcess env hist text convId =
        ⟨.error .unboundLocalConversationId, hist, [], [], []⟩ := by
      simp [asyncProcess, hpre]
    rw [hall]
    refine ⟨hinv, fun id h hg => ⟨[], by simpa using hg⟩, ?_⟩
    intro cid reply _ hres2
    simp at hres2
  · have hmain : asyncProcess env hist text convId =
        turnAfterSession env hist text (resolveSession env hist convId p) := by
      simp [asyncProcess, hpre]
    rw [hmain]
    rcases resolveSession_spec env hist convId p with
      ⟨hn1, hn2, hn3, hn4⟩ | ⟨c, ms, hc1, hc2, hc3⟩
    · -- fresh session
      have h10 : hist1Of hist text (resolveSession env hist convId p)
          = hist := by
        simp [hist1Of, hn1]
      rcases turnAfterSession_dichotomy env hist text
          (resolveSession env hist convId p) with ⟨hh, hnr⟩ | ⟨rep, hres, hh⟩
      · rw [hh, h10]
        refine ⟨hinv, fun id h hg => ⟨[], by simpa using hg⟩, ?_⟩
        intro cid reply _ hres2
        exact absurd hres2 (hnr reply cid)
      · rw [hh, h10]
        refine ⟨?_, ?_, ?_⟩
        · intro id h hg
          rw [histGet_histSet] at hg
          by_cases hid : (resolveSession env hist convId p).cid = id
          · rw [if_pos hid] at hg
            injection hg with hg2
            subst hg2
            exact ⟨p, [⟨"user", Json.str text⟩, ⟨"assistant", rep⟩],
              by simp [hn3, seedMessages]⟩
          · rw [if_neg hid] at hg
            exact hinv id h hg
        · intro id h hg
          have hid : (resolveSession env hist convId p).cid ≠ id := by
            intro he
            rw [hn2] at he
            rw [← he] at hg
            rw [hfresh] at hg
            cases hg
          refine ⟨[], ?_⟩
          rw [histGet_histSet, if_neg hid]
          simpa using hg
        · intro cid reply _ hres2
          rw [hres] at hres2
          obtain ⟨hrep, hcid⟩ : rep = reply ∧
              (resolveSession env hist convId p).cid = cid := by
            simpa using hres2
          refine ⟨p, rfl, ?_⟩
          rw [← hcid, histGet_histSet_self, ← hrep]
          simp [hn3, seedMessages]
    · -- continuing session
      rw [hc3]
      have h10 : hist1Of hist text (⟨c, ms, false⟩ : Resolved) =
          histSet hist c (ms ++ [⟨"user", Json.str text⟩]) := by
        simp [hist1Of]
      obtain ⟨p0, rest0, hms⟩ := hinv c ms hc2
      have hcontra : ∀ (P : Prop),
          (convId = none ∨ ∃ c', convId = some c' ∧ histGet hist c' = none)
          → P := by
        intro P hnew
        rcases hnew with hnone | ⟨c', hc', hgc'⟩
        · rw [hnone] at hc1
          cases hc1
        · rw [hc'] at hc1
          injection hc1 with hcc
          rw [← hcc] at hc2
          rw [hgc'] at hc2
          cases hc2
      rcases turnAfterSession_dichotomy env hist text ⟨c, ms, false⟩ with
        ⟨hh, hnr⟩ | ⟨rep, hres, hh⟩
      · rw [hh, h10]
        refine ⟨?_, ?_, fun cid reply hnew _ => hcontra _ hnew⟩
        · intro id h hg
          rw [histGet_histSet] at hg
          by_cases hid : c = id
          · rw [if_pos hid] at hg
            injection hg with hg2
            subst hg2
            exact ⟨p0, rest0 ++ [⟨"user", Json.str text⟩], by simp [hms]⟩
          · rw [if_neg hid] at hg
            exact hinv id h hg
        · intro id h hg
          by_cases hid : c = id
          · subst hid
            refine ⟨[⟨"user", Json.str text⟩], ?_⟩
            rw [histGet_histSet_self]
            rw [hc2] at hg
            injection hg with hg2
            rw [hg2]
          · refine ⟨[], ?_⟩
            rw [histGet_histSet, if_neg hid]
            simpa using hg
      · rw [hh, h10]
        refine ⟨?_, ?_, fun cid reply hnew _ => hcontra _ hnew⟩
        · intro id h hg
          rw [histGet_histSet] at hg
          by_cases hid : c = id
          · rw [if_pos hid] at hg
            injection hg with hg2
            subst hg2
            exact ⟨p0, (rest0 ++ [⟨"user", Json.str text⟩])
              ++ [⟨"assistant", rep⟩], by simp [hms]⟩
          · rw [if_neg hid] at hg
            rw [histGet_histSet, if_neg hid] at hg
            exact hinv id h hg
        · intro id h hg
          by_cases hid : c = id
          · subst hid
            refine ⟨[⟨"user", Json.str text⟩, ⟨"assistant", rep⟩], ?_⟩
            rw [histGet_histSet_self]
            rw [hc2] at hg
            injection hg with hg2
            rw [hg2, List.append_assoc]
            rfl
          · refine ⟨[], ?_⟩
            rw [histGet_histSet, if_neg hid, histGet_histSet, if_neg hid]
            simpa using hg

/-- Witness for C8 at a concrete successful first turn. -/
theorem c8_history_invariant_witness :
    histGet (asyncProcess (plainEnv "Hello") [] "hi" none).history "NEW" =
      some [⟨"system", Json.str ("P" ++ SYSTEM_PROMPT)⟩,
            ⟨"user", Json.str "hi"⟩, ⟨"assistant", Json.str "Hello"⟩] := by
  obtain ⟨-, -, h3⟩ := c8_history_invariant (plainEnv "Hello") [] "hi" none
    rfl (fun id h hg => Option.noConfusion hg)
  obtain ⟨p, hp, hh⟩ := h3 "NEW" (Json.str "Hello") (Or.inl rfl) rfl
  have hp2 : Except.ok (ε := String) "P" = Except.ok p := hp
  injection hp2 with hp3
  rw [← hp3] at hh
  exact hh

/-- C10: on every turn whose preamble renders, the single message list
sent to the chat client ends with the fully rendered prompt (entity block
plus quoted utterance) as the current user message, while the transcript
stored under the turn's conversation id gains the raw utterance as its
user message (followed at most by an assistant message); the rendered
prompt is never equal to the raw utterance, so it is not what gets
persisted. -/
theorem c10_prompt_sent_raw_persisted (env : Env) (hist : HistStore)
    (text : String) (convId : Option String) (p : String)
    (hp : env.renderPreamble = .ok p)
    (hfresh : histGet hist env.freshId = none) :
    (asyncProcess env hist text convId).llmRequests =
      [(resolveSession env hist convId p).msgs ++
        [⟨"user", Json.str (renderPrompt
          (buildEntitiesTemplate env.services env.entities) text)⟩]] ∧
    (histGet (asyncProcess env hist text convId).history
        (resolveSession env hist convId p).cid = none ∨
      histGet (asyncProcess env hist text convId).history
        (resolveSession env hist convId p).cid =
        some ((resolveSession env hist convId p).msgs ++
          [⟨"user", Json.str text⟩]) ∨
      ∃ rep, histGet (asyncProcess env hist text convId).history
        (resolveSession env hist convId p).cid =
        some (((resolveSession env hist convId p).msgs ++
          [⟨"user", Json.str text⟩]) ++ [⟨"assistant", rep⟩])) ∧
    renderPrompt (buildEntitiesTemplate env.services env.entities) text
      ≠ text := by
  have hmain : asyncProcess env hist text convId =
      turnAfterSession env hist text (resolveSession env hist convId p) := by
    simp [asyncProcess, hp]
  rw [hmain]
  refine ⟨turnAfterSession_llmRequests env hist text _, ?_, ?_⟩
  · rcases turnAfterSession_dichotomy env hist text
        (resolveSession env hist convId p) with ⟨hh, _⟩ | ⟨rep, _, hh⟩
    · rw [hh]
      rcases resolveSession_spec env hist convId p with
        ⟨hn1, hn2, _, _⟩ | ⟨c, ms, _, _, hc3⟩
      · left
        rw [show hist1Of hist text (resolveSession env hist convId p) = hist
            from by simp [hist1Of, hn1], hn2, hfresh]
      · right; left
        rw [hc3]
        simp [hist1Of, histGet_histSet_self]
    · right; right
      exact ⟨rep, by rw [hh, histGet_histSet_self]⟩
  · intro he
    have hlen := congrArg String.length he
    simp only [renderPrompt, String.length_append] at hlen
    have l1 : ("Entities:\n" : String).length = 10 := rfl
    have l2 : ("\n\nPrompt: \"" : String).length = 11 := rfl
    have l3 : ("\"\n" : String).length = 2 := rfl
    rw [l1, l2, l3] at hlen
    omega

/-- Witness for C10 at a concrete plain-text turn. -/
theorem c10_prompt_sent_raw_persisted_witness :
    (asyncProcess (plainEnv "Hello") [] "hi" none).llmRequests =
      [(resolveSession (plainEnv "Hello") [] none "P").msgs ++
        [⟨"user", Json.str (renderPrompt
          (buildEntitiesTemplate (plainEnv "Hello").services
            (plainEnv "Hello").entities) "hi")⟩]] ∧
    (histGet (asyncProcess (plainEnv "Hello") [] "hi" none).history
        (resolveSession (plainEnv "Hello") [] none "P").cid = none ∨
      histGet (asyncProcess (plainEnv "Hello") [] "hi" none).history
        (resolveSession (plainEnv "Hello") [] none "P").cid =
        some ((resolveSession (plainEnv "Hello") [] none "P").msgs ++
          [⟨"user", Json.str "hi"⟩]) ∨
      ∃ rep, histGet (asyncProcess (plainEnv "Hello") [] "hi" none).history
        (resolveSession (plainEnv "Hello") [] none "P").cid =
        some (((resolveSession (plainEnv "Hello") [] none "P").msgs ++
          [⟨"user", Json.str "hi"⟩]) ++ [⟨"assistant", rep⟩])) ∧
    renderPrompt (buildEntitiesTemplate (plainEnv "Hello").services
      (plainEnv "Hello").entities) "hi" ≠ "hi" :=
  c10_prompt_sent_raw_persisted (plainEnv "Hello") [] "hi" none "P" rfl rfl

/-- Counterexample to C9 as stated: `["\x7b\x7d"]` decodes to a JSON
array (not an object), yet the turn does not die with a `TypeError` — the
second pass re-extracts the embedded `\x7b\x7d` as an object and the turn
returns an error-reply result. -/
theorem c9_counterexample :
    c9CtEnv.jsonLoads c9Raw = some (.arr [.str "\x7b\x7d"]) ∧
    (asyncProcess c9CtEnv [] "q" none).result =
      .ok ⟨.errorReply ("Sorry, there was an error understanding OpenAI: "
        ++ assistantKeyErrText), "NEW"⟩ ∧
    (asyncProcess c9CtEnv [] "q" none).result ≠ .error .typeError := by
  refine ⟨rfl, rfl, fun h => ?_⟩
  have h2 : (Except.ok
      (⟨.errorReply ("Sorry, there was an error understanding OpenAI: "
          ++ assistantKeyErrText), "NEW"⟩ : ConvResult) :
      Except PyError ConvResult) = .error .typeError := h
  exact Except.noConfusion h2

end OC
